import Mathlib

/-!
Verification development for the PureCheck repository (a food-label analysis
pipeline).  The Python source in `src/helper.py` and `app.py` is shallowly
embedded below: Python values that flow through the nutrition dictionaries are
modelled by the inductive type `PyVal`, numbers are modelled as rationals
(finite floats; the non-finite values `inf`/`nan` and digit-grouping
underscores accepted by Python's `float` are outside the model, and decimal
digit rendering of numbers is abstracted), raisable code is modelled in the
`Except PyExn` monad, and the external model/retrieval services are modelled
as oracle parameters (`CallOutcome`), as is the standard-library JSON parser
(`jsonLoads : String -> Option PyVal`, with `Option.none` standing for a
`json.JSONDecodeError`).
-/

set_option autoImplicit false

namespace PureCheck

/-- Exceptions that the embedded Python fragments can raise. -/
inductive PyExn where
  | keyError (k : String)
  | attributeError
  | typeError
  | valueError
  | jsonDecodeError
  | serviceError (msg : String)
  deriving DecidableEq, Repr

/-- Python values appearing in the nutrition dictionaries (the JSON universe
plus a constructor `obj` for any other Python object). -/
inductive PyVal where
  | num : ℚ → PyVal
  | str : String → PyVal
  | bool : Bool → PyVal
  | pynone : PyVal
  | list : List PyVal → PyVal
  | dict : List (String × PyVal) → PyVal
  | obj : PyVal

/-- Outcome of an external model/service call: either a textual reply or a
raised exception (network/auth/transport errors, bad credentials, ...). -/
inductive CallOutcome where
  | reply (text : String)
  | raise (e : PyExn)

/-- Python `d.get(k, dflt)` on a dict modelled as an association list
(first binding wins, as dict keys are unique). -/
def dictGet (d : List (String × PyVal)) (k : String) (dflt : PyVal) : PyVal :=
  match d.lookup k with
  | some v => v
  | Option.none => dflt

/-- Python `v == s` for a string literal `s`: only a `str` can compare equal. -/
def pyEqStr (v : PyVal) (s : String) : Bool :=
  match v with
  | .str t => t = s
  | _ => false

/-- Python `v is None`. -/
def pyIsNone (v : PyVal) : Bool :=
  match v with
  | .pynone => true
  | _ => false

/-- Python `str.strip()` with no argument: drop whitespace from both ends. -/
def pyStrip (cs : List Char) : List Char :=
  ((cs.dropWhile Char.isWhitespace).reverse.dropWhile Char.isWhitespace).reverse

/-- Longest digit run at the head of a character list, with the rest. -/
def takeDigits : List Char → List Char × List Char
  | [] => ([], [])
  | c :: cs =>
    if c.isDigit then
      let (d, r) := takeDigits cs
      (c :: d, r)
    else ([], c :: cs)

/-- Numeric value of a digit run. -/
def digitsVal (ds : List Char) : ℕ :=
  ds.foldl (fun a c => 10 * a + (c.toNat - 48)) 0

/-- Optional leading sign; returns `true` for `-`. -/
def parseSign : List Char → Bool × List Char
  | '-' :: cs => (true, cs)
  | '+' :: cs => (false, cs)
  | cs => (false, cs)

/-- Components of a parsed Python float literal: sign, integer-part value,
fraction-part value, number of fraction digits, exponent. -/
structure FloatLit where
  neg : Bool
  ip : ℕ
  fp : ℕ
  fl : ℕ
  ex : ℤ
  deriving DecidableEq, Repr

/-- Mantissa of a Python float literal: digits, optionally with a decimal
point; at least one digit overall is required. -/
def parseMantissa (cs : List Char) : Option ((ℕ × ℕ × ℕ) × List Char) :=
  let (d1, r1) := takeDigits cs
  match r1 with
  | '.' :: r2 =>
    let (d2, r3) := takeDigits r2
    if d1.isEmpty && d2.isEmpty then Option.none
    else some ((digitsVal d1, digitsVal d2, d2.length), r3)
  | _ => if d1.isEmpty then Option.none else some ((digitsVal d1, 0, 0), r1)

/-- Optional exponent suffix `e`/`E` of a float literal; when the marker is
present its digits are mandatory. -/
def parseExpPart (cs : List Char) : Option (ℤ × List Char) :=
  match cs with
  | c :: r1 =>
    if c = 'e' || c = 'E' then
      let (neg, r2) := parseSign r1
      let (ds, r3) := takeDigits r2
      if ds.isEmpty then Option.none
      else some ((if neg then -(digitsVal ds : ℤ) else (digitsVal ds : ℤ)), r3)
    else some (0, cs)
  | [] => some (0, [])

/-- Syntactic phase of Python `float(s)` on a string: strip whitespace, then
sign, mantissa and optional exponent must consume the whole input
(`Option.none` models the `ValueError` raised otherwise). -/
def parsePyFloatRaw (s : String) : Option FloatLit :=
  let cs := pyStrip s.toList
  let (neg, r0) := parseSign cs
  match parseMantissa r0 with
  | Option.none => Option.none
  | some ((ip, fp, fl), r1) =>
    match parseExpPart r1 with
    | Option.none => Option.none
    | some (e, r2) =>
      if r2.isEmpty then some { neg := neg, ip := ip, fp := fp, fl := fl, ex := e }
      else Option.none

/-- Numeric value of a parsed float literal. -/
def FloatLit.toRat (f : FloatLit) : ℚ :=
  let m : ℚ := (f.ip : ℚ) + (f.fp : ℚ) / (10 : ℚ) ^ f.fl
  (if f.neg then -m else m) * (10 : ℚ) ^ f.ex

/-- Python `float(s)` on a string. -/
def parsePyFloat (s : String) : Option ℚ :=
  (parsePyFloatRaw s).map FloatLit.toRat

/-- Python `float(v)` on an arbitrary value; `Option.none` models the
`ValueError`/`TypeError` raised for non-numeric input. -/
def pyFloat : PyVal → Option ℚ
  | .num q => some q
  | .bool b => some (if b then 1 else 0)
  | .str s => parsePyFloat s
  | _ => Option.none

/-- Python subscript `v[k]` with a string key: `KeyError` on a dict missing
the key, `TypeError` on anything that is not a dict. -/
def PyVal.getItem : PyVal → String → Except PyExn PyVal
  | .dict d, k =>
    match d.lookup k with
    | some v => Except.ok v
    | Option.none => Except.error (PyExn.keyError k)
  | _, _ => Except.error PyExn.typeError

/-- Python `v.get(k, dflt)`: `AttributeError` on anything that is not a dict. -/
def PyVal.getDefault : PyVal → String → PyVal → Except PyExn PyVal
  | .dict d, k, dflt => Except.ok (dictGet d k dflt)
  | _, _, _ => Except.error PyExn.attributeError

/-- View of a value as a dict, as demanded by code that calls `.get` on it. -/
def asPyDict : PyVal → Except PyExn (List (String × PyVal))
  | .dict d => Except.ok d
  | _ => Except.error PyExn.attributeError

/-- Unwraps `o`, raising `KeyError k` when the key is absent (models `d[k]`
on the pipeline dicts whose fields we track as `Option`s). -/
def getKey {α : Type} (o : Option α) (k : String) : Except PyExn α :=
  match o with
  | some v => Except.ok v
  | Option.none => Except.error (PyExn.keyError k)

/-! ## Normalization stage: `calculate_nutrient_analysis` (helper.py 341-392) -/

/-- Entry of the nutrient analysis dict: `per_100g` / `inr_baseline` /
`percent_of_inr` (helper.py 373-377). -/
structure NutrientEntry where
  per_100g : ℚ
  inr_baseline : ℚ
  percent_of_inr : ℚ
  deriving DecidableEq, Repr

/-- The five mandatory nutrients (helper.py 353). -/
def mandatoryNutrients : List String :=
  ["energy_kcal", "sugars_g", "saturated_fat_g", "sodium_mg", "protein_g"]

/-- Body of the loop over the mandatory nutrients (helper.py 355-377):
`value = product.get(n, 0)`; the markers `"Not Available"`/`None`/`"N/A"`
become 0, otherwise `float(value)` with `ValueError`/`TypeError` caught to 0;
`baseline = fssai_inr_baseline.get(n, 1)` (the reassignment on lines 366-369
is a no-op and is elided); the percent uses Python truthiness:
`(value / baseline * 100) if value and baseline else 0`. -/
def nutrient_entry (product_nutrition : List (String × PyVal))
    (fssai_inr_baseline : List (String × ℚ)) (n : String) : NutrientEntry :=
  let v0 := dictGet product_nutrition n (.num 0)
  let value : ℚ :=
    if pyEqStr v0 "Not Available" || pyIsNone v0 || pyEqStr v0 "N/A" then 0
    else (pyFloat v0).getD 0
  let baseline := (fssai_inr_baseline.lookup n).getD 1
  { per_100g := value
    inr_baseline := baseline
    percent_of_inr := if value ≠ 0 ∧ baseline ≠ 0 then value / baseline * 100 else 0 }

/-- The mandatory part of the analysis dict, in loop order. -/
def mandatory_part (product_nutrition : List (String × PyVal))
    (fssai_inr_baseline : List (String × ℚ)) : List (String × NutrientEntry) :=
  mandatoryNutrients.map (fun n => (n, nutrient_entry product_nutrition fssai_inr_baseline n))

/-- Fiber handling (helper.py 379-390): `fiber = product.get('fiber_g')`;
the entry is added only when fiber is none of the markers and `float(fiber)`
succeeds; inside the `try`, `fssai_inr_baseline['fiber_g']` is an unguarded
subscript, so a baseline without `fiber_g` raises an uncaught `KeyError`
(modelled by `Option.none`). -/
def fiber_part (product_nutrition : List (String × PyVal))
    (fssai_inr_baseline : List (String × ℚ)) : Option (List (String × NutrientEntry)) :=
  let fiber := dictGet product_nutrition "fiber_g" .pynone
  if pyEqStr fiber "Not Available" || pyIsNone fiber || pyEqStr fiber "N/A" then some []
  else
    match pyFloat fiber with
    | Option.none => some []
    | some fv =>
      match fssai_inr_baseline.lookup "fiber_g" with
      | Option.none => Option.none
      | some fb => some [("fiber_g", { per_100g := fv, inr_baseline := fb,
                                       percent_of_inr := fv / fb * 100 })]

/-- Model of `calculate_nutrient_analysis` (helper.py 341-392): the analysis
dict holds the five mandatory entries followed by the optional fiber entry;
`Option.none` models the only uncaught exception (`KeyError 'fiber_g'` on the
baseline). -/
def calculate_nutrient_analysis (product_nutrition : List (String × PyVal))
    (fssai_inr_baseline : List (String × ℚ)) : Option (List (String × NutrientEntry)) :=
  (fiber_part product_nutrition fssai_inr_baseline).map
    (fun f => mandatory_part product_nutrition fssai_inr_baseline ++ f)

/-! ## Fixed configuration from `app.py` -/

/-- FSSAI INR baseline values (app.py 37-47). -/
def FSSAI_INR_BASELINE : List (String × ℚ) :=
  [("energy_kcal", 2000), ("total_fat_g", 65), ("saturated_fat_g", 20),
   ("carbohydrates_g", 300), ("sugars_g", 50), ("added_sugars_g", 30),
   ("protein_g", 50), ("sodium_mg", 2000), ("fiber_g", 25)]

/-- Allowed upload extensions (app.py 23). -/
def ALLOWED_EXTENSIONS : List String := ["png", "jpg", "jpeg", "gif", "webp"]

/-! ## File-type check: `allowed_file` (helper.py 242-253) -/

/-- Characters after the last `'.'` of a character list; this is
`filename.rsplit('.', 1)[1]` whenever a dot is present. -/
def afterLastDot (cs : List Char) : List Char :=
  ((cs.reverse.takeWhile (fun c => c ≠ '.')).reverse)

/-- Model of `allowed_file` (helper.py 253):
`'.' in filename and filename.rsplit('.', 1)[1].lower() in allowed_extensions`. -/
def allowed_file (filename : String) (allowed_extensions : List String) : Bool :=
  let cs := filename.toList
  cs.contains '.' &&
    allowed_extensions.contains (String.mk ((afterLastDot cs).map Char.toLower))

/-! ## Label extraction stage: `extract_nutrition_info_gpt4o` (helper.py 60-152) -/

/-- Index of the first occurrence of `needle` in `hay` (Python `str.find`,
which also reports 0 on an empty needle). -/
def findSub (needle : List Char) : List Char → Option ℕ
  | [] => if needle.isPrefixOf ([] : List Char) then some 0 else Option.none
  | c :: t =>
    if needle.isPrefixOf (c :: t) then some 0
    else (findSub needle t).map (· + 1)

/-- Python `hay.find(needle, start)`: index from `start`, or `-1`. -/
def pyFindFrom (cs needle : List Char) (start : ℕ) : ℤ :=
  match findSub needle (cs.drop start) with
  | some i => ((start + i : ℕ) : ℤ)
  | Option.none => -1

/-- Python slice `cs[a:b]` with a non-negative lower bound and a possibly
negative upper bound (counted from the end, clamped at 0). -/
def pySlice (cs : List Char) (a : ℕ) (b : ℤ) : List Char :=
  let bb : ℕ := if b < 0 then ((cs.length : ℤ) + b).toNat else b.toNat
  (cs.take bb).drop a

/-- Code-fence stripping of the vision reply (helper.py 128-138): take the
text after a ```` ```json ```` fence (or a plain ``` ``` ``` fence) up to the
next ``` ``` ``` (Python's `find` returning `-1` silently drops the last
character), and strip whitespace; with no fence the raw reply is used
unstripped. -/
def locate_json_str (result_text : String) : String :=
  let cs := result_text.toList
  match findSub ("```json".toList) cs with
  | some i =>
    let jstart := i + 7
    let jend := pyFindFrom cs ("```".toList) jstart
    String.mk (pyStrip (pySlice cs jstart jend))
  | Option.none =>
    match findSub ("```".toList) cs with
    | some i =>
      let jstart := i + 3
      let jend := pyFindFrom cs ("```".toList) jstart
      String.mk (pyStrip (pySlice cs jstart jend))
    | Option.none => result_text

/-- Result dict of `extract_nutrition_info_gpt4o` (helper.py 141-152). -/
structure ExtractionResult where
  success : Bool
  data : Option PyVal
  error : Option String
  raw_response : String

/-- Model of `extract_nutrition_info_gpt4o` (helper.py 60-152).  The oracle
`visionCall` stands for everything up to obtaining the reply text (client
construction, image encoding, the network call): when any of that raises, the
exception propagates, because the function's only `try`/`except` guards the
`json.loads` call (`except json.JSONDecodeError`, modelled by `jsonLoads`
returning `Option.none`).  The exception text interpolated into the error
message is abstracted to a fixed prefix. -/
def extract_nutrition_info_gpt4o (jsonLoads : String → Option PyVal)
    (visionCall : CallOutcome) : Except PyExn ExtractionResult :=
  match visionCall with
  | .raise e => Except.error e
  | .reply result_text =>
    let json_str := locate_json_str result_text
    match jsonLoads json_str with
    | some nutrition_data =>
      Except.ok { success := true, data := some nutrition_data,
                  error := Option.none, raw_response := result_text }
    | Option.none =>
      Except.ok { success := false, data := Option.none,
                  error := some "Failed to parse JSON", raw_response := result_text }

/-! ## Rating stage: `calculate_inr_score` (helper.py 256-338) -/

/-- Lookup of `b[k]` on the baseline dict; `KeyError` when absent. -/
def qLookup (b : List (String × ℚ)) (k : String) : Except PyExn ℚ :=
  match b.lookup k with
  | some v => Except.ok v
  | Option.none => Except.error (PyExn.keyError k)

/-- Lookup of `analysis[k]` on the analysis dict; `KeyError` when absent. -/
def aLookup (a : List (String × NutrientEntry)) (k : String) : Except PyExn NutrientEntry :=
  match a.lookup k with
  | some v => Except.ok v
  | Option.none => Except.error (PyExn.keyError k)

/-- Effects of building the reasoning prompt (helper.py 272-323), in
evaluation order of the f-string fields: `product_data.get('product_type',
'Solid')`, the five subscripts on `product_data['nutritional_info_per_100g']`
plus `.get('fiber_g', 'Not Available')`, the six baseline subscripts, and the
five analysis subscripts (whose `percent_of_inr` is then formatted, which is
total on the typed entries).  The prompt's literal text is irrelevant to the
claims, so only these raisable accesses are modelled. -/
def inr_prompt_checks (product_data : PyVal) (analysis : List (String × NutrientEntry))
    (fssai_inr_baseline : List (String × ℚ)) : Except PyExn Unit := do
  let _ ← product_data.getDefault "product_type" (.str "Solid")
  let ni ← product_data.getItem "nutritional_info_per_100g"
  let _ ← ni.getItem "energy_kcal"
  let _ ← ni.getItem "sugars_g"
  let _ ← ni.getItem "saturated_fat_g"
  let _ ← ni.getItem "sodium_mg"
  let _ ← ni.getItem "protein_g"
  let _ ← ni.getDefault "fiber_g" (.str "Not Available")
  let _ ← qLookup fssai_inr_baseline "energy_kcal"
  let _ ← qLookup fssai_inr_baseline "sugars_g"
  let _ ← qLookup fssai_inr_baseline "saturated_fat_g"
  let _ ← qLookup fssai_inr_baseline "sodium_mg"
  let _ ← qLookup fssai_inr_baseline "protein_g"
  let _ ← qLookup fssai_inr_baseline "fiber_g"
  let _ ← aLookup analysis "energy_kcal"
  let _ ← aLookup analysis "sugars_g"
  let _ ← aLookup analysis "saturated_fat_g"
  let _ ← aLookup analysis "sodium_mg"
  let _ ← aLookup analysis "protein_g"
  pure ()

/-- Model of the regex search `re.search(r'\x7b[\s\S]*\x7d', response_text)`
(helper.py 334): the leftmost position at which the pattern can match is the
first `'{'` of the text, and the greedy `[\s\S]*` extends the match to the
last `'}'` of the text; there is no match when no `'}'` follows the first
`'{'`.  This span is NOT the first balanced JSON object. -/
def inrJsonMatch (s : String) : Option String :=
  let cs := s.toList
  match cs.findIdx? (fun c => c = '{') with
  | Option.none => Option.none
  | some i =>
    let rest := cs.drop i
    match rest.reverse.findIdx? (fun c => c = '}') with
    | Option.none => Option.none
    | some rj =>
      let j := rest.length - 1 - rj
      some (String.mk (rest.take (j + 1)))

/-- Model of `calculate_inr_score` (helper.py 256-338): build the prompt
(whose dict accesses can raise), call the o3 model (abstracted as an oracle,
whose transport errors propagate uncaught), then search the reply with the
greedy brace regex.  No match returns `None`; on a match, `json.loads` is
called with NO surrounding `try`, so a parse failure raises an uncaught
`json.JSONDecodeError`. -/
def calculate_inr_score (jsonLoads : String → Option PyVal) (product_data : PyVal)
    (analysis : List (String × NutrientEntry)) (fssai_inr_baseline : List (String × ℚ))
    (o3Call : CallOutcome) : Except PyExn (Option PyVal) := do
  let _ ← inr_prompt_checks product_data analysis fssai_inr_baseline
  match o3Call with
  | .raise e => Except.error e
  | .reply response_text =>
    match inrJsonMatch response_text with
    | Option.none => Except.ok Option.none
    | some m =>
      match jsonLoads m with
      | some v => Except.ok (some v)
      | Option.none => Except.error PyExn.jsonDecodeError

/-! ## Pipeline orchestrator: `create_nutrition_analysis_chain` (helper.py 395-493) -/

/-- The dict threaded between chain steps; fields absent from a given step's
returned dict are `Option.none`. -/
structure ChainState where
  success : Bool
  error : Option String
  details : Option String
  image_path : String
  product_data : Option PyVal
  analysis : Option (List (String × NutrientEntry))
  inr_result : Option PyVal

/-- Step 1, `extract_nutrition_step` (helper.py 415-433): delegate to the
extractor and convert its failure dict into a chain failure (keeping the
extractor's error string as `details`). -/
def extract_nutrition_step (jsonLoads : String → Option PyVal) (visionCall : CallOutcome)
    (image_path : String) : Except PyExn ChainState := do
  let er ← extract_nutrition_info_gpt4o jsonLoads visionCall
  if er.success = false then
    Except.ok { success := false, error := some "Nutrition extraction failed",
                details := er.error, image_path := image_path,
                product_data := Option.none, analysis := Option.none,
                inr_result := Option.none }
  else
    Except.ok { success := true, error := Option.none, details := Option.none,
                image_path := image_path, product_data := er.data,
                analysis := Option.none, inr_result := Option.none }

/-- Step 2, `calculate_analysis_step` (helper.py 436-453): pass failures
through untouched; otherwise normalize `product_data['nutritional_info_per_100g']`
(a subscript and a `.get`-capable view that can raise on malformed product
data) against the captured baseline. -/
def calculate_analysis_step (fssai_inr_baseline : List (String × ℚ))
    (inputs : ChainState) : Except PyExn ChainState :=
  if inputs.success = false then Except.ok inputs
  else do
    let pd ← getKey inputs.product_data "product_data"
    let ni ← pd.getItem "nutritional_info_per_100g"
    let nid ← asPyDict ni
    let m ← getKey (calculate_nutrient_analysis nid fssai_inr_baseline) "fiber_g"
    Except.ok { success := true, error := Option.none, details := Option.none,
                image_path := inputs.image_path, product_data := some pd,
                analysis := some m, inr_result := Option.none }

/-- Step 3, `calculate_inr_step` (helper.py 456-484): pass failures through
untouched; otherwise score via o3-mini, converting a `None` result into the
stage-tagged failure dict. -/
def calculate_inr_step (jsonLoads : String → Option PyVal) (o3Call : CallOutcome)
    (fssai_inr_baseline : List (String × ℚ)) (inputs : ChainState) :
    Except PyExn ChainState :=
  if inputs.success = false then Except.ok inputs
  else do
    let pd ← getKey inputs.product_data "product_data"
    let analysis ← getKey inputs.analysis "analysis"
    let r ← calculate_inr_score jsonLoads pd analysis fssai_inr_baseline o3Call
    match r with
    | Option.none =>
      Except.ok { success := false, error := some "INR score calculation failed",
                  details := Option.none, image_path := inputs.image_path,
                  product_data := Option.none, analysis := Option.none,
                  inr_result := Option.none }
    | some inr =>
      Except.ok { success := true, error := Option.none, details := Option.none,
                  image_path := inputs.image_path, product_data := some pd,
                  analysis := some analysis, inr_result := some inr }

/-- The sequential chain (helper.py 487-491): step 1 into step 2 into step 3,
with Python exceptions short-circuiting through the `Except` monad just as an
uncaught exception aborts a `RunnableSequence`. -/
def nutrition_analysis_chain (jsonLoads : String → Option PyVal)
    (visionCall o3Call : CallOutcome) (fssai_inr_baseline : List (String × ℚ))
    (image_path : String) : Except PyExn ChainState :=
  extract_nutrition_step jsonLoads visionCall image_path >>=
    calculate_analysis_step fssai_inr_baseline >>=
    calculate_inr_step jsonLoads o3Call fssai_inr_baseline

/-! ## Web routes (app.py) -/

/-- Rendering of an exception by `str(e)` in the 500 bodies. -/
def pyExnStr : PyExn → String
  | .keyError k => k
  | .attributeError => "AttributeError"
  | .typeError => "TypeError"
  | .valueError => "ValueError"
  | .jsonDecodeError => "JSONDecodeError"
  | .serviceError msg => msg

/-- Python `str(v)` as used by f-string interpolation.  The rendering of
numbers and containers is abstracted (the claims never inspect those digits);
a `str` interpolates verbatim, which is what the claims rely on. -/
def pyStr : PyVal → String
  | .num q => toString q
  | .str s => s
  | .bool b => if b then "True" else "False"
  | .pynone => "None"
  | .list _ => "[...]"
  | .dict _ => "\x7b...\x7d"
  | .obj => "<object>"

/-- Python `sep.join(v)`: joins a list of strings (`TypeError` on non-string
elements), the characters of a string, or the keys of a dict; `TypeError`
otherwise. -/
def pyJoin (sep : String) : PyVal → Except PyExn String
  | .list vs => do
    let strs ← vs.mapM (fun v =>
      match v with
      | .str s => Except.ok s
      | _ => Except.error PyExn.typeError)
    Except.ok (String.intercalate sep strs)
  | .str s => Except.ok (String.intercalate sep (s.toList.map (fun c => String.mk [c])))
  | .dict d => Except.ok (String.intercalate sep (d.map Prod.fst))
  | _ => Except.error PyExn.typeError

/-- Python `format(v, '.1f')`: defined on numbers (and bools), raising on
strings, `None` and containers.  The digit rendering itself is abstracted. -/
def pyFormat1f : PyVal → Except PyExn String
  | .num q => Except.ok (toString q)
  | .bool b => Except.ok (if b then "1.0" else "0.0")
  | _ => Except.error PyExn.valueError

/-- The per-session `current_product` payload (app.py 152-157). -/
structure CurrentProduct where
  product_data : PyVal
  analysis : List (String × NutrientEntry)
  inr_result : PyVal
  image_path : String

/-- JSON body and status of an `/upload` response. -/
structure UploadResponse where
  status : ℕ
  success : Option Bool
  error : Option String
  details : Option String
  product_data : Option PyVal
  analysis : Option (List (String × NutrientEntry))
  inr_result : Option PyVal
  image_path : Option String

/-- Shorthand for the error-only upload responses. -/
def uploadError (status : ℕ) (msg : String) (details : Option String := Option.none) :
    UploadResponse :=
  { status := status, success := Option.none, error := some msg, details := details,
    product_data := Option.none, analysis := Option.none, inr_result := Option.none,
    image_path := Option.none }

/-- Model of the `/upload` route (app.py 114-168).  `hasImageField` models
`'image' in request.files`, `filename` the client filename, and `filepath`
the timestamped path the file is saved under (timestamping and
`secure_filename` are external).  The chain is invoked inside `try`; an
exception (`Except.error`) from it, or a `KeyError` on a success dict missing
a field, is caught by the blanket `except Exception` and turned into a 500.
The session slot is written only on the full success path. -/
def upload_image (jsonLoads : String → Option PyVal) (visionCall o3Call : CallOutcome)
    (sess : Option CurrentProduct) (hasImageField : Bool) (filename filepath : String) :
    UploadResponse × Option CurrentProduct :=
  if hasImageField = false then (uploadError 400 "No image file provided", sess)
  else if filename = "" then (uploadError 400 "No file selected", sess)
  else if allowed_file filename ALLOWED_EXTENSIONS = false then
    (uploadError 400 "Invalid file type. Please upload an image (PNG, JPG, JPEG, GIF, WEBP)", sess)
  else
    match nutrition_analysis_chain jsonLoads visionCall o3Call FSSAI_INR_BASELINE filepath with
    | Except.error e => (uploadError 500 (pyExnStr e), sess)
    | Except.ok chain_result =>
      if chain_result.success = false then
        (uploadError 500 ((chain_result.error).getD "Analysis failed") chain_result.details, sess)
      else
        match chain_result.product_data, chain_result.analysis, chain_result.inr_result with
        | some pd, some an, some ir =>
          ({ status := 200, success := some true, error := Option.none,
             details := Option.none, product_data := some pd, analysis := some an,
             inr_result := some ir, image_path := some filename },
           some { product_data := pd, analysis := an, inr_result := ir,
                  image_path := filepath })
        | _, _, _ => (uploadError 500 "KeyError", sess)

/-! ## Chat route (app.py 171-233) -/

/-- JSON body and status of a `/chat` response. -/
structure ChatResponse where
  status : ℕ
  success : Bool
  response : Option String
  error : Option String

/-- Calls the chat route makes on its collaborators, in order. -/
inductive ChatCall where
  | ragInvoke (input : String)
  | chatModelInvoke (prompt : String)
  deriving DecidableEq, Repr

/-- Raisable fields of the product-context f-string (app.py 189-218), in
evaluation order. -/
structure CtxFields where
  nameStr : String
  brandStr : String
  typeStr : String
  scoreStr : String
  gradeStr : String
  energyStr : String
  sugarsStr : String
  satfatStr : String
  sodiumStr : String
  proteinStr : String
  warningsStr : String
  claimsStr : String

/-- Evaluation of the interpolated fields of the product-context prompt
(app.py 192-204): `.get` with defaults for name/brand/type, subscripts into
`inr_result` for the `:.1f`-formatted score and the grade, subscripts into
`product_data['nutritional_info_per_100g']` for the five nutrients, and the
comma-joins of `health_warnings`/`positive_claims` with their `or 'None'`
fallback on an empty join. -/
def context_fields (current : CurrentProduct) : Except PyExn CtxFields := do
  let pd := current.product_data
  let name ← pd.getDefault "product_name" (.str "Unknown")
  let brand ← pd.getDefault "brand" (.str "Unknown")
  let ptype ← pd.getDefault "product_type" (.str "Solid")
  let score ← current.inr_result.getItem "inr_score"
  let scoreStr ← pyFormat1f score
  let grade ← current.inr_result.getItem "grade"
  let ni ← pd.getItem "nutritional_info_per_100g"
  let energy ← ni.getItem "energy_kcal"
  let sugars ← ni.getItem "sugars_g"
  let satfat ← ni.getItem "saturated_fat_g"
  let sodium ← ni.getItem "sodium_mg"
  let protein ← ni.getItem "protein_g"
  let hw ← current.inr_result.getDefault "health_warnings" (.list [])
  let hwJoined ← pyJoin ", " hw
  let pc ← current.inr_result.getDefault "positive_claims" (.list [])
  let pcJoined ← pyJoin ", " pc
  Except.ok { nameStr := pyStr name, brandStr := pyStr brand, typeStr := pyStr ptype,
              scoreStr := scoreStr, gradeStr := pyStr grade, energyStr := pyStr energy,
              sugarsStr := pyStr sugars, satfatStr := pyStr satfat,
              sodiumStr := pyStr sodium, proteinStr := pyStr protein,
              warningsStr := if hwJoined = "" then "None" else hwJoined,
              claimsStr := if pcJoined = "" then "None" else pcJoined }

/-- Assembly of the product-context prompt text (app.py 189-218) from the
evaluated fields and the user's question. -/
def render_product_context (f : CtxFields) (msg : String) : String :=
  "\n\nCurrent Product Analysis:\n- Product: " ++ f.nameStr ++
  "\n- Brand: " ++ f.brandStr ++
  "\n- Type: " ++ f.typeStr ++
  "\n- INR Score: " ++ f.scoreStr ++ "/100" ++
  "\n- Grade: " ++ f.gradeStr ++
  "\n- Energy: " ++ f.energyStr ++ " kcal/100g" ++
  "\n- Sugars: " ++ f.sugarsStr ++ " g/100g" ++
  "\n- Saturated Fat: " ++ f.satfatStr ++ " g/100g" ++
  "\n- Sodium: " ++ f.sodiumStr ++ " mg/100g" ++
  "\n- Protein: " ++ f.proteinStr ++ " g/100g" ++
  "\n\nHealth Warnings: " ++ f.warningsStr ++
  "\nPositive Claims: " ++ f.claimsStr ++
  "\n\nYou are the CPG (Compliance and Product Guidance) assistant for FSSAI regulations and nutrition guidelines.\nPin-point your answers based on the product data provided above.\nTell where the guidlines fails. Which clause is violated.\n\n\nUser Question: " ++ msg ++
  "\n\nFormat your response with:\n- Use **bold** for important terms (wrap text in **)\n- Use bullet points with \"- \" for lists\n- Be concise and friendly\n- Include relevant emojis where appropriate\n"

/-- The product-context prompt (app.py 189-218): field evaluation then
assembly. -/
def build_product_context (current : CurrentProduct) (msg : String) :
    Except PyExn String :=
  (context_fields current).map (fun f => render_product_context f msg)

/-- Model of the `/chat` route (app.py 171-233).  An empty message is
rejected with 400 before anything else.  With a stored product, the
product-context prompt is built (its dict accesses can raise, and then no
collaborator call happens) and `chatModel.invoke` is called on it; without
one, `rag_chain.invoke` is called on the message.  Any exception inside the
`try` yields a 500.  The second component records the collaborator calls
made. -/
def chat (ragCall chatModelCall : CallOutcome) (sess : Option CurrentProduct)
    (msg : String) : ChatResponse × List ChatCall :=
  if msg = "" then
    ({ status := 400, success := false, response := Option.none,
       error := some "No message provided" }, [])
  else
    match sess with
    | some current_product =>
      match build_product_context current_product msg with
      | Except.error e =>
        ({ status := 500, success := false, response := Option.none,
           error := some (pyExnStr e) }, [])
      | Except.ok product_context =>
        match chatModelCall with
        | .raise e =>
          ({ status := 500, success := false, response := Option.none,
             error := some (pyExnStr e) }, [ChatCall.chatModelInvoke product_context])
        | .reply text =>
          ({ status := 200, success := true, response := some text,
             error := Option.none }, [ChatCall.chatModelInvoke product_context])
    | Option.none =>
      match ragCall with
      | .raise e =>
        ({ status := 500, success := false, response := Option.none,
           error := some (pyExnStr e) }, [ChatCall.ragInvoke msg])
      | .reply answer =>
        ({ status := 200, success := true, response := some answer,
           error := Option.none }, [ChatCall.ragInvoke msg])

/-! ## Helper lemmas about the normalization stage -/

/-- Values matching one of the marker checks are exactly the ones `float`
also rejects: the marker short-circuit never hides a parseable number. -/
theorem marker_pyFloat (v : PyVal)
    (h : (pyEqStr v "Not Available" || pyIsNone v || pyEqStr v "N/A") = true) :
    pyFloat v = Option.none := by
  cases v with
  | str t =>
    simp [pyEqStr, pyIsNone] at h
    rcases h with h | h <;> subst h <;> decide
  | pynone => rfl
  | num q => simp [pyEqStr, pyIsNone] at h
  | bool b => simp [pyEqStr, pyIsNone] at h
  | list l => simp [pyEqStr, pyIsNone] at h
  | dict d => simp [pyEqStr, pyIsNone] at h
  | obj => simp [pyEqStr, pyIsNone] at h

/-- The fiber rows the analysis of `p` against the FSSAI baseline ends with:
empty when `float` rejects the fiber value, a single row otherwise. -/
def fiberRows (p : List (String × PyVal)) : List (String × NutrientEntry) :=
  match pyFloat (dictGet p "fiber_g" PyVal.pynone) with
  | Option.none => []
  | some q => [("fiber_g", { per_100g := q, inr_baseline := 25,
                             percent_of_inr := q / 25 * 100 })]

/-- Against the FSSAI baseline (which contains `fiber_g`), `fiber_part`
never raises and produces exactly `fiberRows`. -/
theorem fiber_part_fssai (p : List (String × PyVal)) :
    fiber_part p FSSAI_INR_BASELINE = some (fiberRows p) := by
  unfold fiber_part fiberRows
  by_cases h : (pyEqStr (dictGet p "fiber_g" PyVal.pynone) "Not Available" ||
      pyIsNone (dictGet p "fiber_g" PyVal.pynone) ||
      pyEqStr (dictGet p "fiber_g" PyVal.pynone) "N/A") = true
  · rw [if_pos h, marker_pyFloat _ h]
  · rw [if_neg h]
    cases hf : pyFloat (dictGet p "fiber_g" PyVal.pynone) with
    | none => rfl
    | some q => simp [List.lookup]

/-- Against the FSSAI baseline the analysis always succeeds and is the five
mandatory rows followed by the fiber rows. -/
theorem cna_fssai (p : List (String × PyVal)) :
    calculate_nutrient_analysis p FSSAI_INR_BASELINE =
      some (mandatory_part p FSSAI_INR_BASELINE ++ fiberRows p) := by
  unfold calculate_nutrient_analysis
  rw [fiber_part_fssai]
  rfl

/-- Looking up a mandatory nutrient in the analysis finds its loop entry,
whatever rows follow the mandatory block. -/
theorem mandatory_lookup (p : List (String × PyVal)) (b : List (String × ℚ))
    (n : String) (hn : n ∈ mandatoryNutrients) (rest : List (String × NutrientEntry)) :
    (mandatory_part p b ++ rest).lookup n = some (nutrient_entry p b n) := by
  fin_cases hn <;> simp [mandatory_part, mandatoryNutrients, List.lookup]

/-- Looking up `fiber_g` skips the five mandatory rows. -/
theorem fiber_lookup (p : List (String × PyVal)) (b : List (String × ℚ))
    (rest : List (String × NutrientEntry)) :
    (mandatory_part p b ++ rest).lookup "fiber_g" = rest.lookup "fiber_g" := by
  simp [mandatory_part, mandatoryNutrients, List.lookup]

/-! ## Claim C1 -/

/-- C1 counterexample: on the profile `energy_kcal = -5` (a coerced value
that is negative) the code computes `percent_of_inr = -5/2000*100 = -1/4`,
whereas the claim's formula `value/baseline*100 when value>0 and baseline>0,
and 0 otherwise` demands 0, because `-5 > 0` fails. -/
theorem C1_counterexample :
    (calculate_nutrient_analysis [("energy_kcal", PyVal.num (-5))] FSSAI_INR_BASELINE).map
      (fun m => m.lookup "energy_kcal") =
      some (some { per_100g := -5, inr_baseline := 2000, percent_of_inr := -(1/4) }) ∧
    (if (-5 : ℚ) > 0 ∧ (2000 : ℚ) > 0 then (-5 : ℚ) / 2000 * 100 else 0) = 0 ∧
    ¬ (-(1/4) : ℚ) = 0 := by
  refine ⟨?_, by norm_num, by norm_num⟩
  simp +decide [calculate_nutrient_analysis, mandatory_part, fiber_part, nutrient_entry,
    mandatoryNutrients, dictGet, pyEqStr, pyIsNone, pyFloat, FSSAI_INR_BASELINE, List.lookup]
  norm_num

/-- C1 (amended): for every product nutrition mapping, the analysis against
the fixed FSSAI baseline succeeds and contains an entry for each of the five
mandatory nutrients, whose `per_100g` is the profile value coerced to a
number (the markers `"Not Available"`/`"N/A"`/null/absent giving 0) and
whose `percent_of_inr` is `value/baseline*100` when value and baseline are
both nonzero (Python truthiness) and 0 otherwise — the claim's `value>0`
being amended to `value≠0`. -/
theorem C1_theorem (p : List (String × PyVal)) (n : String) (hn : n ∈ mandatoryNutrients) :
    ∃ m e, calculate_nutrient_analysis p FSSAI_INR_BASELINE = some m ∧
      m.lookup n = some e ∧
      e.per_100g = (if pyEqStr (dictGet p n (PyVal.num 0)) "Not Available" ||
                       pyIsNone (dictGet p n (PyVal.num 0)) ||
                       pyEqStr (dictGet p n (PyVal.num 0)) "N/A" then 0
                    else (pyFloat (dictGet p n (PyVal.num 0))).getD 0) ∧
      e.inr_baseline = (FSSAI_INR_BASELINE.lookup n).getD 1 ∧
      e.percent_of_inr = (if e.per_100g ≠ 0 ∧ e.inr_baseline ≠ 0
                          then e.per_100g / e.inr_baseline * 100 else 0) := by
  refine ⟨_, nutrient_entry p FSSAI_INR_BASELINE n, cna_fssai p,
    mandatory_lookup p FSSAI_INR_BASELINE n hn (fiberRows p), rfl, rfl, rfl⟩

/-- C1 witness: the amended statement evaluated on the profile
`energy_kcal = 450`. -/
theorem C1_witness :
    ∃ m e, calculate_nutrient_analysis [("energy_kcal", PyVal.num 450)] FSSAI_INR_BASELINE
        = some m ∧
      m.lookup "energy_kcal" = some e ∧
      e.per_100g = (if pyEqStr (dictGet [("energy_kcal", PyVal.num 450)] "energy_kcal"
                       (PyVal.num 0)) "Not Available" ||
                       pyIsNone (dictGet [("energy_kcal", PyVal.num 450)] "energy_kcal"
                       (PyVal.num 0)) ||
                       pyEqStr (dictGet [("energy_kcal", PyVal.num 450)] "energy_kcal"
                       (PyVal.num 0)) "N/A" then 0
                    else (pyFloat (dictGet [("energy_kcal", PyVal.num 450)] "energy_kcal"
                       (PyVal.num 0))).getD 0) ∧
      e.inr_baseline = (FSSAI_INR_BASELINE.lookup "energy_kcal").getD 1 ∧
      e.percent_of_inr = (if e.per_100g ≠ 0 ∧ e.inr_baseline ≠ 0
                          then e.per_100g / e.inr_baseline * 100 else 0) :=
  C1_theorem [("energy_kcal", PyVal.num 450)] "energy_kcal" (by decide)

/-! ## Claim C6 -/

/-- C6 (confirmed): fiber that is absent, null, `"Not Available"`, `"N/A"`
or not parseable as a number is omitted from the analysis entirely, while a
parseable fiber value `q` (including 0) yields a `fiber_g` entry with
`percent_of_inr = q / 25 * 100` against the FSSAI fiber baseline of 25. -/
theorem C6_theorem (p : List (String × PyVal)) :
    ((dictGet p "fiber_g" PyVal.pynone = PyVal.pynone ∨
      pyEqStr (dictGet p "fiber_g" PyVal.pynone) "Not Available" = true ∨
      pyEqStr (dictGet p "fiber_g" PyVal.pynone) "N/A" = true ∨
      pyFloat (dictGet p "fiber_g" PyVal.pynone) = Option.none) →
      ∃ m, calculate_nutrient_analysis p FSSAI_INR_BASELINE = some m ∧
        m.lookup "fiber_g" = Option.none) ∧
    (∀ q, pyFloat (dictGet p "fiber_g" PyVal.pynone) = some q →
      ∃ m, calculate_nutrient_analysis p FSSAI_INR_BASELINE = some m ∧
        m.lookup "fiber_g" = some { per_100g := q, inr_baseline := 25,
                                    percent_of_inr := q / 25 * 100 }) := by
  constructor
  · intro h
    have hf : pyFloat (dictGet p "fiber_g" PyVal.pynone) = Option.none := by
      rcases h with h | h | h | h
      · rw [h]; rfl
      · exact marker_pyFloat _ (by simp [h])
      · exact marker_pyFloat _ (by simp [h])
      · exact h
    refine ⟨_, cna_fssai p, ?_⟩
    rw [fiber_lookup]
    simp [fiberRows, hf]
  · intro q hq
    refine ⟨_, cna_fssai p, ?_⟩
    rw [fiber_lookup]
    simp [fiberRows, hq, List.lookup]

/-- C6 witness: the theorem evaluated on a profile with fiber 0 (included,
percent 0) — the hypothesis `pyFloat = some 0` is discharged concretely. -/
theorem C6_witness :
    ∃ m, calculate_nutrient_analysis [("fiber_g", PyVal.num 0)] FSSAI_INR_BASELINE = some m ∧
      m.lookup "fiber_g" = some { per_100g := (0 : ℚ), inr_baseline := 25,
                                  percent_of_inr := (0 : ℚ) / 25 * 100 } :=
  (C6_theorem [("fiber_g", PyVal.num 0)]).2 0 rfl

/-! ## Claim C8 -/

/-- C8 (confirmed): for every input dictionary whatsoever, normalization
against the fixed FSSAI baseline returns a result (its only modelled
exception, the baseline `KeyError`, cannot fire because the FSSAI table has
`fiber_g`), and a mandatory-nutrient value that is a string `float` rejects
— such as `"12 g"` — is coerced to 0 even though it is none of the
documented markers. -/
theorem C8_theorem (p : List (String × PyVal)) :
    (∃ m, calculate_nutrient_analysis p FSSAI_INR_BASELINE = some m) ∧
    (∀ n, n ∈ mandatoryNutrients →
      ∀ s, dictGet p n (PyVal.num 0) = PyVal.str s → parsePyFloat s = Option.none →
        ∃ m e, calculate_nutrient_analysis p FSSAI_INR_BASELINE = some m ∧
          m.lookup n = some e ∧ e.per_100g = 0) := by
  refine ⟨⟨_, cna_fssai p⟩, ?_⟩
  intro n hn s hs hparse
  refine ⟨_, nutrient_entry p FSSAI_INR_BASELINE n, cna_fssai p,
    mandatory_lookup p FSSAI_INR_BASELINE n hn (fiberRows p), ?_⟩
  unfold nutrient_entry
  rw [hs]
  by_cases h : (pyEqStr (PyVal.str s) "Not Available" || pyIsNone (PyVal.str s) ||
      pyEqStr (PyVal.str s) "N/A") = true
  · simp [h]
  · simp only [h]
    simp [pyFloat, hparse]

/-- C8 witness: the unparseable string `"12 g"` for `sugars_g` is coerced
to 0. -/
theorem C8_witness :
    (∃ m, calculate_nutrient_analysis [("sugars_g", PyVal.str "12 g")] FSSAI_INR_BASELINE
        = some m) ∧
    ∃ m e, calculate_nutrient_analysis [("sugars_g", PyVal.str "12 g")] FSSAI_INR_BASELINE
        = some m ∧ m.lookup "sugars_g" = some e ∧ e.per_100g = 0 :=
  ⟨(C8_theorem [("sugars_g", PyVal.str "12 g")]).1,
   (C8_theorem [("sugars_g", PyVal.str "12 g")]).2 "sugars_g" (by decide) "12 g" rfl
     (by decide)⟩

/-! ## Claim C2 -/

/-- C2 (confirmed): (i) when the extraction step yields a failure value, the
whole chain yields exactly that value, and the result does not depend on the
rating model's oracle at all (so the rating stage is never invoked, and the
pure normalization work is skipped by the pass-through); (ii) the
normalization step never constructs a failure value of its own — any failure
value it returns is its input passed through unchanged; (iii) a rating
failure surfaces as the stage-tagged failure value carrying the message
`"INR score calculation failed"`. -/
theorem C2_theorem :
    (∀ (jl : String → Option PyVal) (vc o3 o3' : CallOutcome) (b : List (String × ℚ))
        (ip : String) (st : ChainState),
      extract_nutrition_step jl vc ip = Except.ok st → st.success = false →
      nutrition_analysis_chain jl vc o3 b ip = Except.ok st ∧
      nutrition_analysis_chain jl vc o3 b ip = nutrition_analysis_chain jl vc o3' b ip) ∧
    (∀ (b : List (String × ℚ)) (inputs st : ChainState),
      calculate_analysis_step b inputs = Except.ok st → st.success = false →
      st = inputs) ∧
    (∀ (jl : String → Option PyVal) (o3 : CallOutcome) (b : List (String × ℚ))
        (inputs st : ChainState),
      inputs.success = true →
      calculate_inr_step jl o3 b inputs = Except.ok st → st.success = false →
      st = { success := false, error := some "INR score calculation failed",
             details := Option.none, image_path := inputs.image_path,
             product_data := Option.none, analysis := Option.none,
             inr_result := Option.none }) := by
  refine ⟨?_, ?_, ?_⟩
  · intro jl vc o3 o3' b ip st h hs
    have hpass : ∀ o3x : CallOutcome,
        nutrition_analysis_chain jl vc o3x b ip = Except.ok st := by
      intro o3x
      unfold nutrition_analysis_chain
      rw [h]
      show calculate_analysis_step b st >>= calculate_inr_step jl o3x b = Except.ok st
      unfold calculate_analysis_step
      rw [if_pos hs]
      show calculate_inr_step jl o3x b st = Except.ok st
      unfold calculate_inr_step
      rw [if_pos hs]
    exact ⟨hpass o3, (hpass o3).trans (hpass o3').symm⟩
  · intro b inputs st h hs
    unfold calculate_analysis_step at h
    by_cases hsucc : inputs.success = false
    · rw [if_pos hsucc] at h
      exact (Except.ok.inj h).symm
    · rw [if_neg hsucc] at h
      simp only [bind, Except.bind] at h
      split at h
      · exact absurd h (by simp)
      · split at h
        · exact absurd h (by simp)
        · split at h
          · exact absurd h (by simp)
          · split at h
            · exact absurd h (by simp)
            · have := Except.ok.inj h
              rw [← this] at hs
              simp at hs
  · intro jl o3 b inputs st hin h hs
    unfold calculate_inr_step at h
    rw [hin] at h
    simp only [Bool.true_eq_false, if_false, bind, Except.bind] at h
    split at h
    · exact absurd h (by simp)
    · split at h
      · exact absurd h (by simp)
      · split at h
        · exact absurd h (by simp)
        · split at h
          · exact (Except.ok.inj h).symm
          · have := Except.ok.inj h
            rw [← this] at hs
            simp at hs

/-- Concrete product data whose prompt accesses all succeed. -/
def cPD : PyVal :=
  PyVal.dict [("nutritional_info_per_100g",
    PyVal.dict [("energy_kcal", PyVal.num 100), ("sugars_g", PyVal.num 10),
                ("saturated_fat_g", PyVal.num 2), ("sodium_mg", PyVal.num 300),
                ("protein_g", PyVal.num 5)])]

/-- Concrete analysis dict covering the five mandatory nutrients. -/
def cANA : List (String × NutrientEntry) :=
  [("energy_kcal", { per_100g := 100, inr_baseline := 2000, percent_of_inr := 5 }),
   ("sugars_g", { per_100g := 10, inr_baseline := 50, percent_of_inr := 20 }),
   ("saturated_fat_g", { per_100g := 2, inr_baseline := 20, percent_of_inr := 10 }),
   ("sodium_mg", { per_100g := 300, inr_baseline := 2000, percent_of_inr := 15 }),
   ("protein_g", { per_100g := 5, inr_baseline := 50, percent_of_inr := 10 })]

/-- Concrete extraction-failure state used to exercise the pass-through. -/
def cFailState : ChainState :=
  { success := false, error := some "Nutrition extraction failed",
    details := some "Failed to parse JSON", image_path := "img.png",
    product_data := Option.none, analysis := Option.none, inr_result := Option.none }

/-- Concrete success state feeding the rating step. -/
def cOkState : ChainState :=
  { success := true, error := Option.none, details := Option.none,
    image_path := "img.png", product_data := some cPD, analysis := some cANA,
    inr_result := Option.none }

/-- C2 witness: the three parts of the theorem applied at concrete inputs —
a reply the JSON oracle rejects short-circuits the chain with the extraction
failure for any two rating oracles, the analysis step passes the failure
through, and a braceless rating reply yields the tagged rating failure. -/
theorem C2_witness :
    (nutrition_analysis_chain (fun _ => Option.none) (CallOutcome.reply "oops")
        (CallOutcome.reply "a") FSSAI_INR_BASELINE "img.png" = Except.ok cFailState ∧
      nutrition_analysis_chain (fun _ => Option.none) (CallOutcome.reply "oops")
        (CallOutcome.reply "a") FSSAI_INR_BASELINE "img.png" =
      nutrition_analysis_chain (fun _ => Option.none) (CallOutcome.reply "oops")
        (CallOutcome.raise (PyExn.serviceError "down")) FSSAI_INR_BASELINE "img.png") ∧
    cFailState = cFailState ∧
    ({ success := false, error := some "INR score calculation failed",
       details := Option.none, image_path := cOkState.image_path,
       product_data := Option.none, analysis := Option.none,
       inr_result := Option.none } : ChainState) =
      { success := false, error := some "INR score calculation failed",
        details := Option.none, image_path := cOkState.image_path,
        product_data := Option.none, analysis := Option.none,
        inr_result := Option.none } := by
  refine ⟨C2_theorem.1 (fun _ => Option.none) (CallOutcome.reply "oops")
      (CallOutcome.reply "a") (CallOutcome.raise (PyExn.serviceError "down"))
      FSSAI_INR_BASELINE "img.png" cFailState rfl rfl, ?_, ?_⟩
  · exact C2_theorem.2.1 FSSAI_INR_BASELINE cFailState cFailState rfl rfl
  · exact C2_theorem.2.2 (fun _ => Option.none) (CallOutcome.reply "no braces")
      FSSAI_INR_BASELINE cOkState _ rfl rfl rfl

/-! ## Claim C3 -/

/-- JSON oracle for the C3 scenario: it parses the first balanced object of
the reply (exactly as Python's `json.loads` would) and rejects the larger
greedy span (as `json.loads` would, the span not being valid JSON). -/
def jlC3 : String → Option PyVal :=
  fun s => if s = "\x7b\"a\": 1\x7d" then some (PyVal.dict [("a", PyVal.num 1)])
           else Option.none

/-- Rating reply containing two balanced JSON objects. -/
def replyC3 : String := "\x7b\"a\": 1\x7d and \x7b\"b\": 2\x7d"

/-- C3 counterexample: on a reply holding two JSON objects, the regex takes
the span from the first `'{'` to the last `'}'` — the whole reply, which is
not valid JSON — instead of the first balanced object (which parses fine),
and the resulting `json.loads` failure escapes `calculate_inr_score` as an
uncaught exception instead of a stage-tagged failure value. -/
theorem C3_counterexample :
    calculate_inr_score jlC3 cPD cANA FSSAI_INR_BASELINE (CallOutcome.reply replyC3) =
      Except.error PyExn.jsonDecodeError ∧
    inrJsonMatch replyC3 = some replyC3 ∧
    jlC3 "\x7b\"a\": 1\x7d" = some (PyVal.dict [("a", PyVal.num 1)]) := by
  refine ⟨rfl, by decide, rfl⟩

/-- C3 (amended): the rating stage extracts the span from the first `'{'`
through the last `'}'` of the reply (a greedy regex, not the first balanced
object).  When no such span exists, `calculate_inr_score` returns `None` and
the step converts it into the stage-tagged failure value; when the span
parses, its value is returned; but when the span fails to parse, the
`json.JSONDecodeError` escapes the stage as an uncaught exception. -/
theorem C3_theorem :
    (∀ (jl : String → Option PyVal) (pd : PyVal) (ana : List (String × NutrientEntry))
        (b : List (String × ℚ)) (reply : String),
      inr_prompt_checks pd ana b = Except.ok () → inrJsonMatch reply = Option.none →
      calculate_inr_score jl pd ana b (CallOutcome.reply reply) = Except.ok Option.none) ∧
    (∀ (jl : String → Option PyVal) (pd : PyVal) (ana : List (String × NutrientEntry))
        (b : List (String × ℚ)) (reply m : String) (v : PyVal),
      inr_prompt_checks pd ana b = Except.ok () → inrJsonMatch reply = some m →
      jl m = some v →
      calculate_inr_score jl pd ana b (CallOutcome.reply reply) = Except.ok (some v)) ∧
    (∀ (jl : String → Option PyVal) (pd : PyVal) (ana : List (String × NutrientEntry))
        (b : List (String × ℚ)) (reply m : String),
      inr_prompt_checks pd ana b = Except.ok () → inrJsonMatch reply = some m →
      jl m = Option.none →
      calculate_inr_score jl pd ana b (CallOutcome.reply reply) =
        Except.error PyExn.jsonDecodeError) ∧
    (∀ (jl : String → Option PyVal) (b : List (String × ℚ)) (inputs : ChainState)
        (pd : PyVal) (ana : List (String × NutrientEntry)) (reply : String),
      inputs.success = true → inputs.product_data = some pd → inputs.analysis = some ana →
      inr_prompt_checks pd ana b = Except.ok () → inrJsonMatch reply = Option.none →
      calculate_inr_step jl (CallOutcome.reply reply) b inputs =
        Except.ok { success := false, error := some "INR score calculation failed",
                    details := Option.none, image_path := inputs.image_path,
                    product_data := Option.none, analysis := Option.none,
                    inr_result := Option.none }) := by
  have score : ∀ (jl : String → Option PyVal) (pd : PyVal)
      (ana : List (String × NutrientEntry)) (b : List (String × ℚ)) (reply : String),
      inr_prompt_checks pd ana b = Except.ok () →
      calculate_inr_score jl pd ana b (CallOutcome.reply reply) =
        (match inrJsonMatch reply with
         | Option.none => Except.ok Option.none
         | some m =>
           match jl m with
           | some v => Except.ok (some v)
           | Option.none => Except.error PyExn.jsonDecodeError) := by
    intro jl pd ana b reply hc
    unfold calculate_inr_score
    rw [hc]
    rfl
  refine ⟨?_, ?_, ?_, ?_⟩
  · intro jl pd ana b reply hc hm
    rw [score jl pd ana b reply hc, hm]
  · intro jl pd ana b reply m v hc hm hv
    rw [score jl pd ana b reply hc, hm]
    simp [hv]
  · intro jl pd ana b reply m hc hm hv
    rw [score jl pd ana b reply hc, hm]
    simp [hv]
  · intro jl b inputs pd ana reply hin hpd hana hc hm
    unfold calculate_inr_step
    rw [hin]
    simp only [Bool.true_eq_false, if_false, bind, Except.bind, getKey, hpd, hana]
    rw [score jl pd ana b reply hc, hm]

/-- C3 witness: the amended behaviours at concrete inputs — a braceless
reply gives `None` at the score level and the tagged failure at the step
level, a parseable span passes through, and an unparseable span raises. -/
theorem C3_witness :
    calculate_inr_score jlC3 cPD cANA FSSAI_INR_BASELINE
        (CallOutcome.reply "no braces here") = Except.ok Option.none ∧
    calculate_inr_score (fun _ => some (PyVal.num 1)) cPD cANA FSSAI_INR_BASELINE
        (CallOutcome.reply "\x7bx\x7d") = Except.ok (some (PyVal.num 1)) ∧
    calculate_inr_score (fun _ => Option.none) cPD cANA FSSAI_INR_BASELINE
        (CallOutcome.reply "\x7bx\x7d") = Except.error PyExn.jsonDecodeError ∧
    calculate_inr_step jlC3 (CallOutcome.reply "no braces here") FSSAI_INR_BASELINE
        cOkState =
      Except.ok { success := false, error := some "INR score calculation failed",
                  details := Option.none, image_path := cOkState.image_path,
                  product_data := Option.none, analysis := Option.none,
                  inr_result := Option.none } := by
  refine ⟨C3_theorem.1 jlC3 cPD cANA FSSAI_INR_BASELINE "no braces here" rfl (by decide),
    C3_theorem.2.1 (fun _ => some (PyVal.num 1)) cPD cANA FSSAI_INR_BASELINE
      "\x7bx\x7d" "\x7bx\x7d" (PyVal.num 1) rfl (by decide) rfl,
    C3_theorem.2.2.1 (fun _ => Option.none) cPD cANA FSSAI_INR_BASELINE
      "\x7bx\x7d" "\x7bx\x7d" rfl (by decide) rfl,
    C3_theorem.2.2.2 jlC3 FSSAI_INR_BASELINE cOkState cPD cANA "no braces here"
      rfl rfl rfl rfl (by decide)⟩

/-! ## Claim C4 -/

/-- C4 counterexample: a transport error raised by the vision call escapes
`extract_nutrition_info_gpt4o` — and the chain step around it — as an
exception, instead of being returned as a service-tagged failure value. -/
theorem C4_counterexample :
    extract_nutrition_info_gpt4o (fun _ => Option.none)
        (CallOutcome.raise (PyExn.serviceError "network down")) =
      Except.error (PyExn.serviceError "network down") ∧
    extract_nutrition_step (fun _ => Option.none)
        (CallOutcome.raise (PyExn.serviceError "network down")) "img.png" =
      Except.error (PyExn.serviceError "network down") :=
  ⟨rfl, rfl⟩

/-- C4 (amended): a reply whose located JSON payload fails to parse yields a
recoverable failure value carrying the raw reply text (and the chain step
turns it into the extraction failure state keeping the parse message as
`details`); but a transport/model-call error raised by the vision call
propagates out of the stage as an exception, converted to a 500 response
only by the upload route's blanket handler. -/
theorem C4_theorem :
    (∀ (jl : String → Option PyVal) (reply : String),
      jl (locate_json_str reply) = Option.none →
      extract_nutrition_info_gpt4o jl (CallOutcome.reply reply) =
        Except.ok { success := false, data := Option.none,
                    error := some "Failed to parse JSON", raw_response := reply }) ∧
    (∀ (jl : String → Option PyVal) (e : PyExn),
      extract_nutrition_info_gpt4o jl (CallOutcome.raise e) = Except.error e) ∧
    (∀ (jl : String → Option PyVal) (reply ip : String),
      jl (locate_json_str reply) = Option.none →
      extract_nutrition_step jl (CallOutcome.reply reply) ip =
        Except.ok { success := false, error := some "Nutrition extraction failed",
                    details := some "Failed to parse JSON", image_path := ip,
                    product_data := Option.none, analysis := Option.none,
                    inr_result := Option.none }) ∧
    (∀ (jl : String → Option PyVal) (o3 : CallOutcome) (sess : Option CurrentProduct)
        (fn fp : String) (e : PyExn),
      (fn = "") = false → allowed_file fn ALLOWED_EXTENSIONS = true →
      upload_image jl (CallOutcome.raise e) o3 sess true fn fp =
        (uploadError 500 (pyExnStr e), sess)) := by
  refine ⟨?_, ?_, ?_, ?_⟩
  · intro jl reply h
    simp only [extract_nutrition_info_gpt4o, h]
  · intro jl e
    rfl
  · intro jl reply ip h
    simp only [extract_nutrition_step, extract_nutrition_info_gpt4o, bind, Except.bind, h,
      if_true]
  · intro jl o3 sess fn fp e hfn hext
    unfold upload_image
    rw [if_neg (by simp), if_neg (by simp [hfn]), if_neg (by simp [hext])]
    rfl

/-- C4 witness: the amended behaviours at concrete inputs — an always-failing
JSON oracle yields the failure value carrying the raw reply, a raised
transport error escapes, and the upload route converts that escape into a
generic 500 leaving the session alone. -/
theorem C4_witness :
    extract_nutrition_info_gpt4o (fun _ => Option.none) (CallOutcome.reply "hello") =
      Except.ok { success := false, data := Option.none,
                  error := some "Failed to parse JSON", raw_response := "hello" } ∧
    extract_nutrition_info_gpt4o (fun _ => Option.none)
        (CallOutcome.raise PyExn.valueError) = Except.error PyExn.valueError ∧
    extract_nutrition_step (fun _ => Option.none) (CallOutcome.reply "hello") "a.png" =
      Except.ok { success := false, error := some "Nutrition extraction failed",
                  details := some "Failed to parse JSON", image_path := "a.png",
                  product_data := Option.none, analysis := Option.none,
                  inr_result := Option.none } ∧
    upload_image (fun _ => Option.none)
        (CallOutcome.raise (PyExn.serviceError "auth failed"))
        (CallOutcome.reply "x") Option.none true "label.png" "uploads/label.png" =
      (uploadError 500 (pyExnStr (PyExn.serviceError "auth failed")), Option.none) :=
  ⟨C4_theorem.1 (fun _ => Option.none) "hello" rfl,
   C4_theorem.2.1 (fun _ => Option.none) PyExn.valueError,
   C4_theorem.2.2.1 (fun _ => Option.none) "hello" "a.png" rfl,
   C4_theorem.2.2.2 (fun _ => Option.none) (CallOutcome.reply "x") Option.none
     "label.png" "uploads/label.png" (PyExn.serviceError "auth failed")
     (by decide) (by decide)⟩

/-! ## Claim C5 -/

/-- Parsed rating result violating the documented invariants: a score of 150
(outside `[0,100]`) with grade `"A"`. -/
def badInr : PyVal :=
  PyVal.dict [("inr_score", PyVal.num 150), ("grade", PyVal.str "A")]

/-- C5 counterexample: a parsed rating result whose composite score is 150 —
outside `[0,100]` — is passed through by the rating step completely
untouched, as a success with no flag of any kind, so the implementation
performs no score/grade validation at all. -/
theorem C5_counterexample :
    calculate_inr_step (fun _ => some badInr) (CallOutcome.reply "\x7bok\x7d")
        FSSAI_INR_BASELINE cOkState =
      Except.ok { success := true, error := Option.none, details := Option.none,
                  image_path := cOkState.image_path, product_data := some cPD,
                  analysis := some cANA, inr_result := some badInr } ∧
    ¬ ((150 : ℚ) ≤ 100) := by
  exact ⟨rfl, by norm_num⟩

/-- C5 (amended): the implementation performs no validation of the parsed
rating result — every value the JSON oracle produces from the regex span,
whether or not its score lies in `[0,100]` or its grade matches the score
band, is passed through unchanged as a success. -/
theorem C5_theorem (jl : String → Option PyVal) (b : List (String × ℚ))
    (inputs : ChainState) (pd : PyVal) (ana : List (String × NutrientEntry))
    (reply m : String) (v : PyVal)
    (hin : inputs.success = true) (hpd : inputs.product_data = some pd)
    (hana : inputs.analysis = some ana)
    (hc : inr_prompt_checks pd ana b = Except.ok ())
    (hm : inrJsonMatch reply = some m) (hv : jl m = some v) :
    calculate_inr_step jl (CallOutcome.reply reply) b inputs =
      Except.ok { success := true, error := Option.none, details := Option.none,
                  image_path := inputs.image_path, product_data := some pd,
                  analysis := some ana, inr_result := some v } := by
  unfold calculate_inr_step
  rw [hin]
  simp only [Bool.true_eq_false, if_false, bind, Except.bind, getKey, hpd, hana]
  unfold calculate_inr_score
  rw [hc]
  show (match inrJsonMatch reply with
        | Option.none => Except.ok Option.none
        | some m =>
          match jl m with
          | some v => Except.ok (some v)
          | Option.none => Except.error PyExn.jsonDecodeError) >>= _ = _
  simp only [hm, hv]
  rfl

/-- C5 witness: the pass-through applied to the concrete violating result
`badInr` (score 150, grade A). -/
theorem C5_witness :
    calculate_inr_step (fun _ => some badInr) (CallOutcome.reply "x\x7by\x7dz")
        FSSAI_INR_BASELINE cOkState =
      Except.ok { success := true, error := Option.none, details := Option.none,
                  image_path := cOkState.image_path, product_data := some cPD,
                  analysis := some cANA, inr_result := some badInr } :=
  C5_theorem (fun _ => some badInr) FSSAI_INR_BASELINE cOkState cPD cANA
    "x\x7by\x7dz" "\x7by\x7d" badInr rfl rfl rfl rfl (by decide) rfl

/-! ## Helper lemmas for the chat prompt and the filename check -/

/-- Substring-embedding: `m` occurs contiguously inside `big`. -/
def containsSub (big m : String) : Prop :=
  ∃ pre post, big = pre ++ m ++ post

/-- An embedded string stays embedded after appending on the right. -/
theorem containsSub_drop_right (s t m : String) (h : containsSub s m) :
    containsSub (s ++ t) m := by
  obtain ⟨pre, post, hs⟩ := h
  exact ⟨pre, post ++ t, by rw [hs, String.append_assoc, String.append_assoc]⟩

/-- A string is embedded at the end of anything it terminates. -/
theorem containsSub_end (a m : String) : containsSub (a ++ m) m :=
  ⟨a, "", (String.append_empty (a ++ m)).symm⟩

/-- A run of characters all satisfying `p` followed by a `p`-failing
character is exactly what `takeWhile p` keeps. -/
theorem takeWhile_run (p : Char → Bool) (l : List Char) (c : Char) (r : List Char)
    (hl : ∀ x ∈ l, p x = true) (hc : p c = false) :
    ((l ++ c :: r).takeWhile p) = l := by
  induction l with
  | nil => simp [List.takeWhile, hc]
  | cons a t ih =>
    have ha : p a = true := hl a (by simp)
    simp only [List.cons_append, List.takeWhile, ha, List.append_eq]
    rw [ih (fun x hx => hl x (by simp [hx]))]

/-- Characters after the last dot of `a ++ '.' :: b` are `b` when `b` is
dot-free. -/
theorem afterLastDot_spec (a b : List Char) (hb : '.' ∉ b) :
    afterLastDot (a ++ '.' :: b) = b := by
  unfold afterLastDot
  have : (a ++ '.' :: b).reverse = b.reverse ++ '.' :: a.reverse := by
    simp
  rw [this, takeWhile_run _ b.reverse '.' a.reverse
    (fun x hx => by
      simp only [List.mem_reverse] at hx
      simp only [ne_eq, decide_eq_true_eq]
      exact fun h => hb (h ▸ hx))
    (by simp), List.reverse_reverse]

/-- A character list containing a dot splits at its last dot. -/
theorem contains_dot_decomp (cs : List Char) (h : cs.contains '.' = true) :
    ∃ a b, cs = a ++ '.' :: b ∧ '.' ∉ b := by
  induction cs with
  | nil => simp at h
  | cons c t ih =>
    by_cases ht : t.contains '.' = true
    · obtain ⟨a, b, heq, hb⟩ := ih ht
      exact ⟨c :: a, b, by rw [heq]; rfl, hb⟩
    · have hc : c = '.' := by
        rw [List.contains_cons] at h
        rcases Bool.or_eq_true_iff.mp h with h1 | h1
        · exact (beq_iff_eq.mp h1).symm
        · exact absurd h1 ht
      refine ⟨[], t, by rw [hc]; rfl, fun hmem => ht ?_⟩
      exact List.elem_iff.mpr hmem

/-! ## Claim C7 -/

/-- C7 (confirmed): for every chat request with a non-empty message, the
responder with no stored product issues exactly one retrieval-chain call (on
the message); with a stored product it issues no retrieval call, and —
whenever the product-context prompt builds — exactly one direct
text-generation call on that prompt, which embeds the stored product's name,
brand, type, formatted score, grade, joined warnings, joined claims, and the
question. -/
theorem C7_theorem (rag chatm : CallOutcome) (sess : Option CurrentProduct)
    (msg : String) (hmsg : (msg = "") = false) :
    (sess = Option.none → (chat rag chatm sess msg).2 = [ChatCall.ragInvoke msg]) ∧
    (∀ current, sess = some current →
      (∀ q, ChatCall.ragInvoke q ∉ (chat rag chatm sess msg).2) ∧
      (∀ f, context_fields current = Except.ok f →
        (chat rag chatm sess msg).2 =
          [ChatCall.chatModelInvoke (render_product_context f msg)] ∧
        containsSub (render_product_context f msg) f.nameStr ∧
        containsSub (render_product_context f msg) f.scoreStr ∧
        containsSub (render_product_context f msg) f.gradeStr ∧
        containsSub (render_product_context f msg) f.warningsStr ∧
        containsSub (render_product_context f msg) f.claimsStr ∧
        containsSub (render_product_context f msg) msg)) := by
  have hembed : ∀ (f : CtxFields) (m : String),
      containsSub (render_product_context f m) f.nameStr ∧
      containsSub (render_product_context f m) f.scoreStr ∧
      containsSub (render_product_context f m) f.gradeStr ∧
      containsSub (render_product_context f m) f.warningsStr ∧
      containsSub (render_product_context f m) f.claimsStr ∧
      containsSub (render_product_context f m) m := by
    intro f m
    unfold render_product_context
    refine ⟨?_, ?_, ?_, ?_, ?_, ?_⟩ <;>
      (repeat first
        | exact containsSub_end _ _
        | apply containsSub_drop_right)
  constructor
  · intro hnone
    subst hnone
    unfold chat
    rw [if_neg (by simp [hmsg])]
    cases rag <;> rfl
  · intro current hsome
    subst hsome
    constructor
    · intro q
      unfold chat
      rw [if_neg (by simp [hmsg])]
      show ChatCall.ragInvoke q ∉ (match build_product_context current msg with
        | Except.error e =>
          (({ status := 500, success := false, response := Option.none,
              error := some (pyExnStr e) } : ChatResponse), ([] : List ChatCall))
        | Except.ok product_context =>
          match chatm with
          | .raise e =>
            (({ status := 500, success := false, response := Option.none,
                error := some (pyExnStr e) } : ChatResponse),
             [ChatCall.chatModelInvoke product_context])
          | .reply text =>
            (({ status := 200, success := true, response := some text,
                error := Option.none } : ChatResponse),
             [ChatCall.chatModelInvoke product_context])).2
      cases build_product_context current msg with
      | error e => simp
      | ok pc => cases chatm <;> simp
    · intro f hf
      have hbuild : build_product_context current msg =
          Except.ok (render_product_context f msg) := by
        unfold build_product_context
        rw [hf]
        rfl
      refine ⟨?_, hembed f msg⟩
      unfold chat
      rw [if_neg (by simp [hmsg])]
      show (match build_product_context current msg with
        | Except.error e =>
          (({ status := 500, success := false, response := Option.none,
              error := some (pyExnStr e) } : ChatResponse), ([] : List ChatCall))
        | Except.ok product_context =>
          match chatm with
          | .raise e =>
            (({ status := 500, success := false, response := Option.none,
                error := some (pyExnStr e) } : ChatResponse),
             [ChatCall.chatModelInvoke product_context])
          | .reply text =>
            (({ status := 200, success := true, response := some text,
                error := Option.none } : ChatResponse),
             [ChatCall.chatModelInvoke product_context])).2 = _
      rw [hbuild]
      cases chatm <;> rfl

/-- Concrete stored product for exercising the chat route. -/
def cCUR : CurrentProduct :=
  { product_data := PyVal.dict
      [("product_name", PyVal.str "Maggi Noodles"), ("brand", PyVal.str "Nestle"),
       ("product_type", PyVal.str "Solid"),
       ("nutritional_info_per_100g", PyVal.dict
         [("energy_kcal", PyVal.num 450), ("sugars_g", PyVal.num 25),
          ("saturated_fat_g", PyVal.num 8), ("sodium_mg", PyVal.num 200),
          ("protein_g", PyVal.num 6)])]
    analysis := cANA
    inr_result := PyVal.dict
      [("inr_score", PyVal.num 85), ("grade", PyVal.str "A"),
       ("health_warnings", PyVal.list [PyVal.str "High sodium"]),
       ("positive_claims", PyVal.list [PyVal.str "Good protein"])]
    image_path := "uploads/x.png" }

/-- The field strings the chat route computes for `cCUR`. -/
def cF : CtxFields :=
  { nameStr := "Maggi Noodles", brandStr := "Nestle", typeStr := "Solid",
    scoreStr := toString (85 : ℚ), gradeStr := "A",
    energyStr := toString (450 : ℚ), sugarsStr := toString (25 : ℚ),
    satfatStr := toString (8 : ℚ), sodiumStr := toString (200 : ℚ),
    proteinStr := toString (6 : ℚ),
    warningsStr := "High sodium", claimsStr := "Good protein" }

/-- C7 witness: the theorem applied with concrete collaborator oracles — no
session yields the single retrieval call, and the stored product `cCUR`
yields the single direct call on the rendered prompt, which embeds the
grade, the score and the question. -/
theorem C7_witness :
    (chat (CallOutcome.reply "r") (CallOutcome.reply "ans") Option.none "what is INR?").2 =
      [ChatCall.ragInvoke "what is INR?"] ∧
    ChatCall.ragInvoke "what is INR?" ∉
      (chat (CallOutcome.reply "r") (CallOutcome.reply "ans") (some cCUR) "is it ok?").2 ∧
    (chat (CallOutcome.reply "r") (CallOutcome.reply "ans") (some cCUR) "is it ok?").2 =
      [ChatCall.chatModelInvoke (render_product_context cF "is it ok?")] ∧
    containsSub (render_product_context cF "is it ok?") cF.gradeStr ∧
    containsSub (render_product_context cF "is it ok?") cF.scoreStr ∧
    containsSub (render_product_context cF "is it ok?") "is it ok?" := by
  have h0 := (C7_theorem (CallOutcome.reply "r") (CallOutcome.reply "ans") Option.none
    "what is INR?" (by decide)).1 rfl
  have h := (C7_theorem (CallOutcome.reply "r") (CallOutcome.reply "ans") (some cCUR)
    "is it ok?" (by decide)).2 cCUR rfl
  have hf : context_fields cCUR = Except.ok cF := rfl
  exact ⟨h0, h.1 "what is INR?", (h.2 cF hf).1, (h.2 cF hf).2.2.2.1,
    (h.2 cF hf).2.2.1, (h.2 cF hf).2.2.2.2.2.2⟩

/-! ## Claim C9 -/

/-- C9 (confirmed): the upload route leaves the stored session product
unchanged whenever the pipeline raises an exception or returns a failure
value (and also on every 400 validation rejection); the only way the session
slot changes is the full success path, which returns the 200 success
response. -/
theorem C9_theorem (jl : String → Option PyVal) (vc o3 : CallOutcome)
    (sess : Option CurrentProduct) (hasF : Bool) (fn fp : String) :
    (∀ e, nutrition_analysis_chain jl vc o3 FSSAI_INR_BASELINE fp = Except.error e →
      (upload_image jl vc o3 sess hasF fn fp).2 = sess) ∧
    (∀ cr, nutrition_analysis_chain jl vc o3 FSSAI_INR_BASELINE fp = Except.ok cr →
      cr.success = false → (upload_image jl vc o3 sess hasF fn fp).2 = sess) ∧
    ((upload_image jl vc o3 sess hasF fn fp).2 = sess ∨
      ((upload_image jl vc o3 sess hasF fn fp).1.status = 200 ∧
       (upload_image jl vc o3 sess hasF fn fp).1.success = some true)) := by
  refine ⟨?_, ?_, ?_⟩
  · intro e he
    unfold upload_image
    split
    · rfl
    split
    · rfl
    split
    · rfl
    rw [he]
  · intro cr hcr hfail
    unfold upload_image
    split
    · rfl
    split
    · rfl
    split
    · rfl
    rw [hcr]
    simp only [hfail, if_true]
  · unfold upload_image
    split
    · exact Or.inl rfl
    split
    · exact Or.inl rfl
    split
    · exact Or.inl rfl
    split
    · exact Or.inl rfl
    split
    · exact Or.inl rfl
    split
    · exact Or.inr ⟨rfl, rfl⟩
    · exact Or.inl rfl

/-- C9 witness: hypotheses discharged at concrete inputs — a raising vision
call (chain raises) and a rejecting JSON oracle (chain returns a failure
value) both leave a previously stored product `cCUR` untouched. -/
theorem C9_witness :
    (upload_image (fun _ => Option.none)
      (CallOutcome.raise (PyExn.serviceError "boom")) (CallOutcome.reply "x")
      (some cCUR) true "a.png" "uploads/a.png").2 = some cCUR ∧
    (upload_image (fun _ => Option.none) (CallOutcome.reply "not json")
      (CallOutcome.reply "x") (some cCUR) true "a.png" "uploads/a.png").2 = some cCUR :=
  ⟨(C9_theorem (fun _ => Option.none) (CallOutcome.raise (PyExn.serviceError "boom"))
      (CallOutcome.reply "x") (some cCUR) true "a.png" "uploads/a.png").1
      (PyExn.serviceError "boom") rfl,
   (C9_theorem (fun _ => Option.none) (CallOutcome.reply "not json")
      (CallOutcome.reply "x") (some cCUR) true "a.png" "uploads/a.png").2.1
      { success := false, error := some "Nutrition extraction failed",
        details := some "Failed to parse JSON", image_path := "uploads/a.png",
        product_data := Option.none, analysis := Option.none,
        inr_result := Option.none } rfl rfl⟩

/-! ## Claim C10 -/

/-- C10 (confirmed): a filename passes the upload file-type check exactly
when it contains a dot and the substring after its last dot lowercases to
one of the five allowed extensions — so matching is case-insensitive
(`label.PNG` accepted), only the final extension counts (`a.png.exe`
rejected), and a dotless (but non-empty) filename makes the upload route
answer 400 with the invalid-file-type error. -/
theorem C10_theorem :
    (∀ f : String, allowed_file f ALLOWED_EXTENSIONS = true ↔
      ∃ a b, f.toList = a ++ '.' :: b ∧ '.' ∉ b ∧
        String.mk (b.map Char.toLower) ∈ ALLOWED_EXTENSIONS) ∧
    allowed_file "label.PNG" ALLOWED_EXTENSIONS = true ∧
    allowed_file "a.png.exe" ALLOWED_EXTENSIONS = false ∧
    (∀ (jl : String → Option PyVal) (vc o3 : CallOutcome) (sess : Option CurrentProduct)
        (f fp : String), f.toList.contains '.' = false → (f = "") = false →
      upload_image jl vc o3 sess true f fp =
        (uploadError 400
          "Invalid file type. Please upload an image (PNG, JPG, JPEG, GIF, WEBP)", sess)) := by
  refine ⟨?_, by decide, by decide, ?_⟩
  · intro f
    constructor
    · intro h
      unfold allowed_file at h
      rw [Bool.and_eq_true] at h
      obtain ⟨a, b, heq, hb⟩ := contains_dot_decomp f.toList h.1
      refine ⟨a, b, heq, hb, ?_⟩
      have hafter : afterLastDot f.toList = b := heq ▸ afterLastDot_spec a b hb
      rw [← hafter]
      exact List.elem_iff.mp h.2
    · rintro ⟨a, b, heq, hb, hmem⟩
      unfold allowed_file
      rw [Bool.and_eq_true]
      constructor
      · rw [heq]
        exact List.elem_iff.mpr (by simp)
      · rw [heq, afterLastDot_spec a b hb]
        exact List.elem_iff.mpr hmem
  · intro jl vc o3 sess f fp hdot hne
    have hal : allowed_file f ALLOWED_EXTENSIONS = false := by
      simp only [allowed_file]
      rw [hdot]
      rfl
    unfold upload_image
    rw [if_neg (by simp), if_neg (by simp [hne]), if_pos (by simp [hal])]

/-- C10 witness: the characterization evaluated at `label.PNG` (accepted via
the decomposition `label` / `PNG`) and the 400 answer evaluated at the
dotless filename `noext`. -/
theorem C10_witness :
    (∃ a b, "label.PNG".toList = a ++ '.' :: b ∧ '.' ∉ b ∧
      String.mk (b.map Char.toLower) ∈ ALLOWED_EXTENSIONS) ∧
    upload_image (fun _ => Option.none) (CallOutcome.reply "x") (CallOutcome.reply "y")
        Option.none true "noext" "uploads/noext" =
      (uploadError 400
        "Invalid file type. Please upload an image (PNG, JPG, JPEG, GIF, WEBP)",
       Option.none) :=
  ⟨(C10_theorem.1 "label.PNG").mp (by decide),
   C10_theorem.2.2.2 (fun _ => Option.none) (CallOutcome.reply "x")
     (CallOutcome.reply "y") Option.none "noext" "uploads/noext" (by decide) (by decide)⟩

end PureCheck
